import Mathlib

/-!
# EduConnect submission/grading data model — verification

Shallow embedding of the core of `src/app.py` (Flask handlers over a
Postgres store): the solutions table, the student upload handler
(`upload_solution`), the grading handler (`grade_solution`), paper
deletion (`delete_paper`), the submission viewer (`view_submission`),
the teacher-dashboard per-student statistics (`teacher_dashboard`) and
the analytics averages (`teacher_analytics`).

Modelling conventions:
* The database is a record of lists of rows; each SQL statement executed
  by a handler is applied to this state immediately and in program
  order.  Transaction/commit plumbing, HTTP sessions, flash messages and
  file storage are I/O glue outside the modelled core.
* SQL `REAL` marks are modelled as `ℚ`; the display rounding
  `round(a, 2)` applied by the dashboard before rendering is
  presentational and not modelled.
* `SERIAL` primary keys are modelled by a `next_id` counter; rows are
  appended, so list order coincides with `ORDER BY id`.
* Fresh `uuid4` group identifiers are modelled as parameters together
  with a freshness assumption where it matters.
-/

namespace EduConnect

/-- A row of the `users` table (`app.py` schema, lines 142-150). -/
structure User where
  username : String
  password : String
  role : String
  name : String
deriving Repr, DecidableEq

/-- A row of the `papers` table (`app.py` schema, lines 152-160). -/
structure Paper where
  id : Nat
  title : String
  filename : String
  uploaded_by : String
  uploaded_at : String
deriving Repr, DecidableEq

/-- A row of the `solutions` table (`app.py` schema, lines 162-180).
The unused legacy `marks` column is omitted; numeric SQL columns are
nullable, hence `Option`. -/
structure SolutionRow where
  id : Nat
  paper_id : Nat
  student_username : String
  filename : String
  submitted_at : String
  submission_group : Option String
  total_questions : Option Int
  attempted : Option Int
  correct : Option Int
  incorrect : Option Int
  total_marks : Option ℚ
  obtained_marks : Option ℚ
  passing_marks : Option ℚ
  result_status : Option String
deriving Repr, DecidableEq

/-- The datastore: the three tables plus the serial counters. -/
structure DB where
  users : List User
  papers : List Paper
  solutions : List SolutionRow
  next_id : Nat
  next_paper_id : Nat
deriving Repr, DecidableEq

/-- The seed accounts inserted by `init_db` (`DEFAULT_USERS`, lines 88-93). -/
def DEFAULT_USERS : List User :=
  [⟨"admin", "Ujjwal9512", "teacher", "Admin"⟩,
   ⟨"Rakhi", "Rakhi@9523", "student", "Rakhi"⟩,
   ⟨"student02", "student02", "student", "Student Two"⟩,
   ⟨"student03", "student03", "student", "Student Three"⟩]

/-- The state right after `init_db` on an empty database. -/
def initDB : DB :=
  { users := DEFAULT_USERS, papers := [], solutions := [],
    next_id := 1, next_paper_id := 1 }

/-! ## File-extension validation (`upload_solution`, lines 544-547) -/

/-- `ALLOWED_IMAGE_EXT` (line 81). -/
def ALLOWED_IMAGE_EXT : List String := ["jpg", "jpeg", "png"]

/-- ASCII lower-casing of one character (Python `str.lower` restricted
to ASCII, which is all the extension check needs). -/
def lowerChar (c : Char) : Char :=
  if 'A' ≤ c ∧ c ≤ 'Z' then Char.ofNat (c.toNat + 32) else c

/-- The characters after the last dot, `none` when there is no dot
(Python `rsplit(".", 1)` keeps the whole string in that case). -/
def lastDotSplit : List Char → Option (List Char)
  | [] => none
  | c :: cs =>
    match lastDotSplit cs with
    | some e => some e
    | none => if c = '.' then some cs else none

/-- Python `f.filename.rsplit(".", 1)[-1].lower()` (line 544). -/
def fileExt (f : String) : String :=
  (((lastDotSplit f.toList).getD f.toList).map lowerChar).asString

/-- Membership test of line 545. -/
def isAllowedImage (f : String) : Bool := ALLOWED_IMAGE_EXT.contains (fileExt f)

/-! ## Student upload (`upload_solution`, lines 509-561) -/

/-- Outcome of the upload handler: the duplicate-submission rejection
(line 530), the no-file rejection (line 533), the bad-extension
rejection inside the loop (line 546), or success. -/
inductive UploadResult where
  | duplicate
  | noFiles
  | badExtension
  | success
deriving Repr, DecidableEq

/-- The row inserted for one file (INSERT of lines 554-558): grading
columns are left NULL.  The `sol_<timestamp>_` prefix and
`secure_filename` munging of the stored name are file-system glue and
not modelled; the stored name is the uploaded name. -/
def mkSolutionRow (id pid : Nat) (student fname now gid : String) : SolutionRow :=
  { id := id, paper_id := pid, student_username := student, filename := fname,
    submitted_at := now, submission_group := some gid,
    total_questions := none, attempted := none, correct := none, incorrect := none,
    total_marks := none, obtained_marks := none, passing_marks := none,
    result_status := none }

/-- One `INSERT INTO solutions` statement. -/
def insertSolution (db : DB) (pid : Nat) (student fname now gid : String) : DB :=
  { db with
      solutions := db.solutions ++ [mkSolutionRow db.next_id pid student fname now gid],
      next_id := db.next_id + 1 }

/-- The per-file loop of lines 540-558: skip empty filenames, validate
the extension, insert one row per file.  An invalid extension returns
at once (line 547) — rows inserted by earlier iterations stay in the
store (there is no wrapping transaction). -/
def insertFiles (pid : Nat) (student now gid : String) :
    List String → DB → DB × UploadResult
  | [], db => (db, UploadResult.success)
  | f :: rest, db =>
    if f = "" then insertFiles pid student now gid rest db
    else if isAllowedImage f then
      insertFiles pid student now gid rest (insertSolution db pid student f now gid)
    else (db, UploadResult.badExtension)

/-- The upload handler `upload_solution` (lines 509-561): one-time
submission check (lines 522-531), empty-batch check (line 533), then
the per-file insert loop.  `gid` is the `uuid4` group id, `now` the
shared timestamp of line 538. -/
def upload_solution (db : DB) (student : String) (pid : Nat) (files : List String)
    (gid now : String) : DB × UploadResult :=
  if (db.solutions.filter
        (fun r => decide (r.student_username = student ∧ r.paper_id = pid))).length > 0 then
    (db, UploadResult.duplicate)
  else if files.all (fun f => f = "") then
    (db, UploadResult.noFiles)
  else
    insertFiles pid student now gid files db

/-! ## Python numeric coercion (`grade_solution`, lines 638-650) -/

/-- Strip leading and trailing whitespace (Python `int`/`float` accept
surrounding whitespace). -/
def trimChars (cs : List Char) : List Char :=
  ((cs.dropWhile Char.isWhitespace).reverse.dropWhile Char.isWhitespace).reverse

/-- Leading sign of a numeric literal. -/
def splitSign : List Char → Bool × List Char
  | '-' :: cs => (true, cs)
  | '+' :: cs => (false, cs)
  | cs => (false, cs)

/-- Value of a digit string (only meaningful when all are digits). -/
def digitsVal (cs : List Char) : Nat :=
  cs.foldl (fun acc c => acc * 10 + (c.toNat - 48)) 0

/-- A nonempty all-digit string, or failure. -/
def parseDigits (cs : List Char) : Option Nat :=
  if cs ≠ [] ∧ cs.all Char.isDigit then some (digitsVal cs) else none

/-- Modelled after Python `int(s)`: surrounding whitespace, an optional
sign and decimal digits.  (Underscore separators, unicode digits and
other Python niceties are not modelled.) -/
def parsePyInt (s : String) : Option Int :=
  let sc := splitSign (trimChars s.toList)
  (parseDigits sc.2).map (fun n => if sc.1 then -(n : Int) else (n : Int))

/-- First component up to the first dot, rest after it (if any). -/
def splitDot : List Char → List Char × Option (List Char)
  | [] => ([], none)
  | '.' :: cs => ([], some cs)
  | c :: cs =>
    let r := splitDot cs
    (c :: r.1, r.2)

/-- Modelled after Python `float(s)`: optional sign, decimal digits with
an optional fractional part; at least one digit overall.  (Exponents,
`inf`/`nan` and underscore separators are not modelled.) -/
def parsePyFloat (s : String) : Option ℚ :=
  let sc := splitSign (trimChars s.toList)
  let parts := splitDot sc.2
  let val? : Option ℚ :=
    match parts.2 with
    | none => (parseDigits parts.1).map (fun n => (n : ℚ))
    | some fp =>
      if parts.1.isEmpty && fp.isEmpty then none
      else if parts.1.all Char.isDigit && fp.all Char.isDigit then
        some ((digitsVal parts.1 : ℚ) + (digitsVal fp : ℚ) / (10 : ℚ) ^ fp.length)
      else none
  val?.map (fun v => if sc.1 then -v else v)

/-- A form: field name to optional raw string value. -/
def Form : Type := String → Option String

/-- `to_int` of lines 638-643: `int(val) if val else 0`, with
`ValueError` caught and defaulted to `0`. -/
def to_int (form : Form) (name : String) : Int :=
  match form name with
  | none => 0
  | some s => if s = "" then 0 else (parsePyInt s).getD 0

/-- `to_float` of lines 645-650: `float(val) if val else 0.0`, with
`ValueError` caught and defaulted to `0.0`. -/
def to_float (form : Form) (name : String) : ℚ :=
  match form name with
  | none => 0
  | some s => if s = "" then 0 else (parsePyFloat s).getD 0

/-! ## Grading (`grade_solution`, lines 632-686) -/

/-- Effect of the UPDATE of lines 662-683 on one row: rows of the given
group receive the coerced fields and the derived status (line 660),
other rows are untouched. -/
def gradeRow (form : Form) (gid : String) (r : SolutionRow) : SolutionRow :=
  if r.submission_group = some gid then
    { r with
        total_questions := some (to_int form "total_questions"),
        attempted := some (to_int form "attempted"),
        correct := some (to_int form "correct"),
        incorrect := some (to_int form "incorrect"),
        total_marks := some (to_float form "total_marks"),
        obtained_marks := some (to_float form "obtained_marks"),
        passing_marks := some (to_float form "passing_marks"),
        result_status := some (if to_float form "obtained_marks" ≥
            to_float form "passing_marks" then "PASS" else "FAIL") }
  else r

/-- The grading handler `grade_solution` (lines 632-686): coerce the
seven numeric form fields, derive PASS/FAIL, update every row of the
group in one statement.  Total: a missing group updates no rows. -/
def grade_solution (db : DB) (gid : String) (form : Form) : DB :=
  { db with solutions := db.solutions.map (gradeRow form gid) }

/-! ## Paper deletion and renames (`delete_paper` lines 487-502,
`rename_paper` lines 471-481, `student_profile` rename lines 790-805,
`upload_paper` lines 429-465) -/

/-- `delete_paper`: DELETE the solutions referencing the paper, then the
paper row (lines 498-499). -/
def delete_paper (db : DB) (pid : Nat) : DB :=
  { db with
      solutions := db.solutions.filter (fun r => decide (r.paper_id ≠ pid)),
      papers := db.papers.filter (fun p => decide (p.id ≠ pid)) }

/-- `upload_paper`: INSERT one paper row (lines 456-462). -/
def upload_paper (db : DB) (title fname uploader at_ : String) : DB :=
  { db with
      papers := db.papers ++ [⟨db.next_paper_id, title, fname, uploader, at_⟩],
      next_paper_id := db.next_paper_id + 1 }

/-- `rename_paper`: UPDATE the title (line 478). -/
def rename_paper (db : DB) (pid : Nat) (newTitle : String) : DB :=
  { db with
      papers := db.papers.map
        (fun p => if p.id = pid then { p with title := newTitle } else p) }

/-- Effect of the solutions UPDATE of lines 802-805 on one row. -/
def renameRow (oldU newU : String) (r : SolutionRow) : SolutionRow :=
  if r.student_username = oldU then { r with student_username := newU } else r

/-- The username-rename branch of `student_profile` (lines 790-805):
rejected when the new username is taken, otherwise the `users` row and
every `solutions` row are updated. -/
def rename_student (db : DB) (oldU newU : String) : DB × Bool :=
  if db.users.any (fun u => u.username == newU) then (db, false)
  else
    ({ db with
         users := db.users.map
           (fun u => if u.username = oldU then { u with username := newU } else u),
         solutions := db.solutions.map (renameRow oldU newU) },
     true)

/-! ## Submission viewing (`view_submission`, lines 568-611) -/

/-- `SELECT * FROM solutions WHERE submission_group = %s ORDER BY id`
(lines 573-576); list order is id order by construction. -/
def groupRows (db : DB) (gid : String) : List SolutionRow :=
  db.solutions.filter (fun r => decide (r.submission_group = some gid))

/-- The group lookup of `view_submission`: an empty group aborts with
404 (lines 579-580), modelled as `none`. -/
def list_group (db : DB) (gid : String) : Option (List SolutionRow) :=
  if groupRows db gid = [] then none else some (groupRows db gid)

/-- The ordered file references of a group (line 583). -/
def groupFiles (db : DB) (gid : String) : List String :=
  (groupRows db gid).map (fun r => r.filename)

/-- The clamping of lines 595-598: `page` is forced up to 1 and then
down to the number of files. -/
def clampPage (page : Int) (n : Nat) : Int :=
  let p := if page < 1 then 1 else page
  if p > (n : Int) then (n : Int) else p

/-- `files[page - 1]` after clamping (line 600); `none` when the group
is empty (the 404 path). -/
def group_page (db : DB) (gid : String) (page : Int) : Option String :=
  let files := groupFiles db gid
  if files = [] then none
  else some (files.getD (clampPage page files.length - 1).toNat "")

/-! ## Teacher dashboard per-student statistics
(`teacher_dashboard`, lines 342-369) -/

/-- The rows selected by both per-student queries:
`WHERE student_username = %s AND obtained_marks IS NOT NULL`. -/
def gradedRows (db : DB) (u : String) : List SolutionRow :=
  db.solutions.filter
    (fun r => decide (r.student_username = u ∧ r.obtained_marks ≠ none))

/-- `COUNT(DISTINCT submission_group)` (lines 346-353).  SQL
`COUNT(DISTINCT c)` counts the distinct non-NULL values of `c`. -/
def studentGradedCount (db : DB) (u : String) : Nat :=
  (((gradedRows db u).filterMap (fun r => r.submission_group)).dedup).length

/-- SQL `AVG` over a list of non-NULL values: `NULL` on the empty set. -/
def sqlAvg (l : List ℚ) : Option ℚ :=
  if l = [] then none else some (l.sum / l.length)

/-- `AVG(obtained_marks)` over the student's graded rows coalesced to 0
(lines 355-368): the `round(a, 2)` display rounding is presentational
and not modelled. -/
def studentAvgMarks (db : DB) (u : String) : ℚ :=
  (sqlAvg ((gradedRows db u).filterMap (fun r => r.obtained_marks))).getD 0

/-! ## Analytics (`teacher_analytics`, lines 857-885) -/

/-- Per-student LEFT JOIN average (lines 862-869): the joined
`obtained_marks` values of the student's solution rows; a student with
no solutions contributes one all-NULL joined row, and SQL `AVG` over
NULLs only is NULL. -/
def analyticsStudentAvg (db : DB) (u : String) : Option ℚ :=
  sqlAvg ((db.solutions.filter (fun r => decide (r.student_username = u))).filterMap
    (fun r => r.obtained_marks))

/-- Per-paper LEFT JOIN average (lines 872-878). -/
def analyticsPaperAvg (db : DB) (pid : Nat) : Option ℚ :=
  sqlAvg ((db.solutions.filter (fun r => decide (r.paper_id = pid))).filterMap
    (fun r => r.obtained_marks))

/-! ## The spec's per-group reading of the per-student statistics

The following definitions follow the words of the specification (§4.3
"Per-student statistics" together with the group-by bullet and §3's
legacy-singleton convention), to be compared with the SQL the dashboard
actually runs.  They are the one place the spec, not the source, is the
model. -/

/-- Digit character of `n < 10`. -/
def digitChar (n : Nat) : Char := Char.ofNat (48 + n)

/-- Decimal digits of `n`, fuelled for structural recursion. -/
def natDigitsAux : Nat → Nat → List Char
  | 0, _ => []
  | fuel + 1, n =>
    if n < 10 then [digitChar n]
    else natDigitsAux fuel (n / 10) ++ [digitChar (n % 10)]

/-- Decimal rendering of a natural number. -/
def natToString (n : Nat) : String := (natDigitsAux (n + 1) n).asString

/-- The group key of a row: its `submission_group`, with legacy rows
(no group identifier) treated as singleton groups keyed by their row id
(spec §3; the dashboard grouping at line 303 uses the same
`legacy_<id>` fallback). -/
def groupKey (r : SolutionRow) : String :=
  r.submission_group.getD ("legacy_" ++ natToString r.id)

/-- The claim's distinct graded groups of a student, legacy rows as
singletons. -/
def specStudentGroups (db : DB) (u : String) : List String :=
  (((gradedRows db u).map groupKey).dedup)

/-- The claim's count of distinct graded submission groups. -/
def specStudentCount (db : DB) (u : String) : Nat :=
  (specStudentGroups db u).length

/-- A graded group's mark: any member row's `obtained_marks` (the spec
notes all rows of a graded group carry identical values). -/
def specGroupMark (db : DB) (u g : String) : ℚ :=
  match (gradedRows db u).find? (fun r => groupKey r == g) with
  | some r => r.obtained_marks.getD 0
  | none => 0

/-- The claim's average: 0 with no graded groups, else the arithmetic
mean of `obtained_marks` with one term per graded group. -/
def specStudentAvg (db : DB) (u : String) : ℚ :=
  if specStudentGroups db u = [] then 0
  else ((specStudentGroups db u).map (specGroupMark db u)).sum /
    ((specStudentGroups db u).length : ℚ)

/-- Counterexample store for the per-student statistics: student `s`
has graded group `g1` (one row, 6 marks) and graded group `g2` (two
rows, 0 marks each); student `t` has one graded legacy row (NULL
`submission_group`, 5 marks). -/
def dbC1 : DB :=
  { initDB with solutions :=
      [{ mkSolutionRow 1 7 "s" "a.jpg" "t1" "g1" with obtained_marks := some 6 },
       { mkSolutionRow 2 7 "s" "b.jpg" "t1" "g2" with obtained_marks := some 0 },
       { mkSolutionRow 3 7 "s" "c.jpg" "t1" "g2" with obtained_marks := some 0 },
       { mkSolutionRow 4 8 "t" "d.jpg" "t2" "gX" with
           submission_group := none, obtained_marks := some 5 }] }

/-! ## Group invariant and reachable states (for the invariants claim) -/

/-- All grading fields of the row are NULL (as created by upload). -/
def rowUngraded (r : SolutionRow) : Prop :=
  r.total_questions = none ∧ r.attempted = none ∧ r.correct = none ∧
  r.incorrect = none ∧ r.total_marks = none ∧ r.obtained_marks = none ∧
  r.passing_marks = none ∧ r.result_status = none

/-- All grading fields of the row are non-NULL (as left by grading). -/
def rowGraded (r : SolutionRow) : Prop :=
  r.total_questions ≠ none ∧ r.attempted ≠ none ∧ r.correct ≠ none ∧
  r.incorrect ≠ none ∧ r.total_marks ≠ none ∧ r.obtained_marks ≠ none ∧
  r.passing_marks ≠ none ∧ r.result_status ≠ none

/-- The two rows carry identical grading fields and result status. -/
def gradingAgrees (r1 r2 : SolutionRow) : Prop :=
  r1.total_questions = r2.total_questions ∧ r1.attempted = r2.attempted ∧
  r1.correct = r2.correct ∧ r1.incorrect = r2.incorrect ∧
  r1.total_marks = r2.total_marks ∧ r1.obtained_marks = r2.obtained_marks ∧
  r1.passing_marks = r2.passing_marks ∧ r1.result_status = r2.result_status

/-- Two rows of one submission group agree on the shared key fields and
on all grading fields. -/
def sameGroupConsistent (r1 r2 : SolutionRow) : Prop :=
  r1.paper_id = r2.paper_id ∧ r1.student_username = r2.student_username ∧
  r1.submitted_at = r2.submitted_at ∧ gradingAgrees r1 r2

/-- The submission-group invariant of the spec (§3): every row is fully
ungraded or fully graded, and any two rows sharing a `submission_group`
value agree on `paper_id`, `student_username`, `submitted_at` and all
grading fields (hence a group is never partially graded). -/
def GroupInvariant (db : DB) : Prop :=
  (∀ r ∈ db.solutions, rowUngraded r ∨ rowGraded r) ∧
  (∀ g : String, ∀ r1 ∈ db.solutions, ∀ r2 ∈ db.solutions,
    r1.submission_group = some g → r2.submission_group = some g →
      sameGroupConsistent r1 r2)

/-- The group identifier is unused in the store — the model of a fresh
`uuid4` (line 537). -/
def FreshGroup (db : DB) (gid : String) : Prop :=
  ∀ r ∈ db.solutions, r.submission_group ≠ some gid

/-- One request against the store: paper upload/rename/delete, a
student solution upload (with a fresh group id), a grading call, or a
profile username rename. -/
inductive Step : DB → DB → Prop where
  | paperUpload (db : DB) (title fname uploader at_ : String) :
      Step db (upload_paper db title fname uploader at_)
  | paperRename (db : DB) (pid : Nat) (newTitle : String) :
      Step db (rename_paper db pid newTitle)
  | paperDelete (db : DB) (pid : Nat) :
      Step db (delete_paper db pid)
  | solutionUpload (db : DB) (student : String) (pid : Nat) (files : List String)
      (gid now : String) (fresh : FreshGroup db gid) :
      Step db (upload_solution db student pid files gid now).1
  | solutionGrade (db : DB) (gid : String) (form : Form) :
      Step db (grade_solution db gid form)
  | studentRename (db : DB) (oldU newU : String) :
      Step db (rename_student db oldU newU).1

/-- States reachable from the freshly initialised store. -/
def Reachable (db : DB) : Prop := Relation.ReflTransGen Step initDB db

/-! ## Malformed numeric form input (grading leniency) -/

/-- Inputs on which Python `int(val) if val else 0` does not produce a
parsed value: a missing field, an empty string, or an unparseable
string (`ValueError`). -/
def MalformedIntInput (v : Option String) : Prop :=
  v = none ∨ v = some "" ∨ ∃ s, v = some s ∧ parsePyInt s = none

/-- Likewise for `float(val) if val else 0.0`. -/
def MalformedFloatInput (v : Option String) : Prop :=
  v = none ∨ v = some "" ∨ ∃ s, v = some s ∧ parsePyFloat s = none

/-- Every numeric grading field of the form is missing or malformed. -/
def AllGradingFieldsMalformed (form : Form) : Prop :=
  MalformedIntInput (form "total_questions") ∧
  MalformedIntInput (form "attempted") ∧
  MalformedIntInput (form "correct") ∧
  MalformedIntInput (form "incorrect") ∧
  MalformedFloatInput (form "total_marks") ∧
  MalformedFloatInput (form "obtained_marks") ∧
  MalformedFloatInput (form "passing_marks")

/-! ## Concrete stores and forms used by the witnesses -/

/-- A small store: one paper, one ungraded two-file group by `Rakhi`. -/
def dbG : DB :=
  { initDB with
      papers := [⟨1, "Algebra", "p.pdf", "admin", "d1"⟩],
      solutions := [mkSolutionRow 1 1 "Rakhi" "a.jpg" "t1" "g1",
                    mkSolutionRow 2 1 "Rakhi" "b.jpg" "t1" "g1"],
      next_id := 3, next_paper_id := 2 }

/-- A grading form: 60 obtained, 50 passing, other fields absent. -/
def formPass : Form := fun n =>
  if n = "obtained_marks" then some "60"
  else if n = "passing_marks" then some "50" else none

/-- A grading form with every field absent. -/
def formNone : Form := fun _ => none

/-- A grading form whose only present field is unparseable. -/
def formBad : Form := fun n =>
  if n = "obtained_marks" then some "abc" else none

/-- A reachable store: a paper upload followed by a two-file solution
upload. -/
def dbW3 : DB :=
  (upload_solution (upload_paper initDB "Algebra" "p.pdf" "admin" "d1")
    "Rakhi" 1 ["a.jpg", "b.jpg"] "g1" "t1").1

/-! # Theorems -/

/-! ## Helper lemmas -/

theorem length_filterMap_of_isSome {α β : Type _} (f : α → Option β) :
    ∀ l : List α, (∀ a ∈ l, (f a).isSome) → (l.filterMap f).length = l.length := by
  intro l
  induction l with
  | nil => intro _; rfl
  | cons a l ih =>
    intro h
    have ha : (f a).isSome := h a (List.mem_cons_self a l)
    obtain ⟨b, hb⟩ := Option.isSome_iff_exists.mp ha
    rw [List.filterMap_cons, hb, List.length_cons,
      ih (fun x hx => h x (List.mem_cons_of_mem a hx))]
    rfl

theorem mem_gradedRows {db : DB} {u : String} {r : SolutionRow}
    (h : r ∈ gradedRows db u) :
    r ∈ db.solutions ∧ r.student_username = u ∧ r.obtained_marks ≠ none := by
  have h' := List.mem_filter.mp h
  refine ⟨h'.1, ?_⟩
  simpa using h'.2

/-! ## C1 — dashboard per-student statistics -/

/-- C1 fails on the code: at `dbC1`, the dashboard average for student
`s` is the per-row mean 2 while the claimed per-group mean is 3, and
the dashboard count for student `t` is 0 while the claimed count (the
legacy row as a singleton group) is 1 — SQL `COUNT(DISTINCT ...)`
ignores NULL group identifiers and `AVG(obtained_marks)` averages over
rows, not groups. -/
theorem C1_counterexample :
    studentAvgMarks dbC1 "s" ≠ specStudentAvg dbC1 "s" ∧
    studentGradedCount dbC1 "t" ≠ specStudentCount dbC1 "t" := by
  constructor
  · have h1 : studentAvgMarks dbC1 "s" = 2 := by
      have hrows : (gradedRows dbC1 "s").filterMap (fun r => r.obtained_marks)
          = [6, 0, 0] := by decide
      simp [studentAvgMarks, hrows, sqlAvg]
      norm_num
    have h2 : specStudentAvg dbC1 "s" = 3 := by
      have hg : specStudentGroups dbC1 "s" = ["g1", "g2"] := by decide
      have hm1 : specGroupMark dbC1 "s" "g1" = 6 := by decide
      have hm2 : specGroupMark dbC1 "s" "g2" = 0 := by decide
      simp [specStudentAvg, hg, hm1, hm2]
      norm_num
    rw [h1, h2]; norm_num
  · decide

/-- C1 amended: for every student, the dashboard count equals the
number of distinct non-null `submission_group` identifiers among the
student's graded rows (legacy NULL-group rows are not counted), and the
dashboard average is 0 when the student has no graded rows and
otherwise equals the arithmetic mean of `obtained_marks` taken with one
term per graded row (so multi-file groups weigh by their row count). -/
theorem C1_amended_statistics (db : DB) (u : String) :
    studentGradedCount db u =
      ((gradedRows db u).filterMap (fun r => r.submission_group)).toFinset.card ∧
    studentAvgMarks db u =
      (if gradedRows db u = [] then 0
       else ((gradedRows db u).filterMap (fun r => r.obtained_marks)).sum /
         ((gradedRows db u).length : ℚ)) := by
  constructor
  · rw [studentGradedCount, List.card_toFinset]
  · by_cases h : gradedRows db u = []
    · rw [if_pos h]
      simp [studentAvgMarks, h, sqlAvg]
    · rw [if_neg h]
      have hlen : ((gradedRows db u).filterMap (fun r => r.obtained_marks)).length
          = (gradedRows db u).length := by
        apply length_filterMap_of_isSome
        intro r hr
        exact Option.isSome_iff_ne_none.mpr (mem_gradedRows hr).2.2
      have hne : (gradedRows db u).filterMap (fun r => r.obtained_marks) ≠ [] := by
        intro hc
        apply h
        have hl := congrArg List.length hc
        rw [hlen] at hl
        exact List.length_eq_zero.mp hl
      simp only [studentAvgMarks, sqlAvg, if_neg hne, Option.getD_some, hlen]

/-- Witness for the amended statistics at the concrete store `dbC1`. -/
theorem C1_amended_witness :
    studentGradedCount dbC1 "s" =
      ((gradedRows dbC1 "s").filterMap (fun r => r.submission_group)).toFinset.card ∧
    studentAvgMarks dbC1 "s" =
      (if gradedRows dbC1 "s" = [] then 0
       else ((gradedRows dbC1 "s").filterMap (fun r => r.obtained_marks)).sum /
         ((gradedRows dbC1 "s").length : ℚ)) :=
  C1_amended_statistics dbC1 "s"

/-! ## C2 — all-or-nothing insertion of a submission group -/

/-- C2 fails on the code (a defect the spec itself flags in §9): the
upload loop inserts one row per file as it validates, so a batch whose
second file has a disallowed extension is rejected only after the first
file's row is already in the store.  Here `alice` uploads
`page1.jpg, page2.txt` for paper 7 on an empty store: the call fails
with the bad-extension error, yet one row has been persisted. -/
theorem C2_per_row_insert_not_atomic :
    (upload_solution initDB "alice" 7 ["page1.jpg", "page2.txt"] "g-1" "t0").2
        = UploadResult.badExtension ∧
    initDB.solutions = [] ∧
    (upload_solution initDB "alice" 7 ["page1.jpg", "page2.txt"] "g-1" "t0").1.solutions
        = [mkSolutionRow 1 7 "alice" "page1.jpg" "t0" "g-1"] := by decide

/-! ## Grading helper lemmas -/

theorem gradeRow_submission_group (form : Form) (gid : String) (r : SolutionRow) :
    (gradeRow form gid r).submission_group = r.submission_group := by
  unfold gradeRow; split <;> rfl

theorem gradeRow_paper_id (form : Form) (gid : String) (r : SolutionRow) :
    (gradeRow form gid r).paper_id = r.paper_id := by
  unfold gradeRow; split <;> rfl

theorem gradeRow_student_username (form : Form) (gid : String) (r : SolutionRow) :
    (gradeRow form gid r).student_username = r.student_username := by
  unfold gradeRow; split <;> rfl

theorem gradeRow_submitted_at (form : Form) (gid : String) (r : SolutionRow) :
    (gradeRow form gid r).submitted_at = r.submitted_at := by
  unfold gradeRow; split <;> rfl

theorem gradeRow_of_not_group (form : Form) (gid : String) (r : SolutionRow)
    (h : r.submission_group ≠ some gid) : gradeRow form gid r = r := by
  unfold gradeRow; rw [if_neg h]

theorem mem_grade_solution {db : DB} {gid : String} {form : Form} {r : SolutionRow}
    (h : r ∈ (grade_solution db gid form).solutions) :
    ∃ r0 ∈ db.solutions, r = gradeRow form gid r0 := by
  obtain ⟨r0, hr0, hr⟩ := List.mem_map.mp h
  exact ⟨r0, hr0, hr.symm⟩

/-- What the UPDATE of lines 662-683 leaves in every row of the group. -/
theorem grade_solution_fields (db : DB) (gid : String) (form : Form) :
    ∀ r ∈ (grade_solution db gid form).solutions, r.submission_group = some gid →
      r.total_questions = some (to_int form "total_questions") ∧
      r.attempted = some (to_int form "attempted") ∧
      r.correct = some (to_int form "correct") ∧
      r.incorrect = some (to_int form "incorrect") ∧
      r.total_marks = some (to_float form "total_marks") ∧
      r.obtained_marks = some (to_float form "obtained_marks") ∧
      r.passing_marks = some (to_float form "passing_marks") ∧
      r.result_status = some (if to_float form "obtained_marks" ≥
          to_float form "passing_marks" then "PASS" else "FAIL") := by
  intro r hr hg
  obtain ⟨r0, _, rfl⟩ := mem_grade_solution hr
  rw [gradeRow_submission_group] at hg
  rw [gradeRow, if_pos hg]
  exact ⟨rfl, rfl, rfl, rfl, rfl, rfl, rfl, rfl⟩

/-! ## C4 — grading applies uniform fields and PASS/FAIL threshold -/

/-- C4: after `grade(group_id, fields)`, any two rows of the group carry
identical grading fields and result status, and a row's status is
`PASS` exactly when the coerced `obtained_marks` is at least the
coerced `passing_marks`, and `FAIL` otherwise. -/
theorem C4_grade_uniform (db : DB) (gid : String) (form : Form) :
    (∀ r1 ∈ (grade_solution db gid form).solutions,
     ∀ r2 ∈ (grade_solution db gid form).solutions,
      r1.submission_group = some gid → r2.submission_group = some gid →
        gradingAgrees r1 r2) ∧
    (∀ r ∈ (grade_solution db gid form).solutions, r.submission_group = some gid →
      (r.result_status = some "PASS" ↔
        to_float form "obtained_marks" ≥ to_float form "passing_marks") ∧
      (r.result_status = some "PASS" ∨ r.result_status = some "FAIL")) := by
  constructor
  · intro r1 h1 r2 h2 hg1 hg2
    obtain ⟨q1, q2, q3, q4, q5, q6, q7, q8⟩ := grade_solution_fields db gid form r1 h1 hg1
    obtain ⟨w1, w2, w3, w4, w5, w6, w7, w8⟩ := grade_solution_fields db gid form r2 h2 hg2
    exact ⟨q1.trans w1.symm, q2.trans w2.symm, q3.trans w3.symm, q4.trans w4.symm,
      q5.trans w5.symm, q6.trans w6.symm, q7.trans w7.symm, q8.trans w8.symm⟩
  · intro r hr hg
    have h8 := (grade_solution_fields db gid form r hr hg).2.2.2.2.2.2.2
    by_cases hc : to_float form "obtained_marks" ≥ to_float form "passing_marks"
    · rw [if_pos hc] at h8
      exact ⟨⟨fun _ => hc, fun _ => h8⟩, Or.inl h8⟩
    · rw [if_neg hc] at h8
      refine ⟨⟨fun hP => ?_, fun hcc => absurd hcc hc⟩, Or.inr h8⟩
      rw [h8] at hP
      exact absurd (Option.some.inj hP) (by decide)

/-- Witness for C4 at a concrete store and form: grading group `g1` of
`dbG` with 60 obtained / 50 passing marks. -/
theorem C4_witness :
    gradingAgrees (gradeRow formPass "g1" (mkSolutionRow 1 1 "Rakhi" "a.jpg" "t1" "g1"))
      (gradeRow formPass "g1" (mkSolutionRow 2 1 "Rakhi" "b.jpg" "t1" "g1")) ∧
    ((gradeRow formPass "g1" (mkSolutionRow 1 1 "Rakhi" "a.jpg" "t1" "g1")).result_status
        = some "PASS" ↔
      to_float formPass "obtained_marks" ≥ to_float formPass "passing_marks") := by
  have h := C4_grade_uniform dbG "g1" formPass
  have m1 : gradeRow formPass "g1" (mkSolutionRow 1 1 "Rakhi" "a.jpg" "t1" "g1")
      ∈ (grade_solution dbG "g1" formPass).solutions :=
    List.mem_map_of_mem _ (by decide)
  have m2 : gradeRow formPass "g1" (mkSolutionRow 2 1 "Rakhi" "b.jpg" "t1" "g1")
      ∈ (grade_solution dbG "g1" formPass).solutions :=
    List.mem_map_of_mem _ (by decide)
  have hg1 : (gradeRow formPass "g1"
      (mkSolutionRow 1 1 "Rakhi" "a.jpg" "t1" "g1")).submission_group = some "g1" := by
    rw [gradeRow_submission_group]; rfl
  have hg2 : (gradeRow formPass "g1"
      (mkSolutionRow 2 1 "Rakhi" "b.jpg" "t1" "g1")).submission_group = some "g1" := by
    rw [gradeRow_submission_group]; rfl
  exact ⟨h.1 _ m1 _ m2 hg1 hg2, (h.2 _ m1 hg1).1⟩

/-! ## Coercion helper lemmas -/

theorem to_int_eq_zero_of_malformed {form : Form} {name : String}
    (h : MalformedIntInput (form name)) : to_int form name = 0 := by
  rcases h with h | h | ⟨s, hs, hp⟩
  · rw [to_int, h]
  · rw [to_int, h]; rfl
  · simp only [to_int, hs]
    by_cases he : s = ""
    · rw [if_pos he]
    · rw [if_neg he, hp]; rfl

theorem to_float_eq_zero_of_malformed {form : Form} {name : String}
    (h : MalformedFloatInput (form name)) : to_float form name = 0 := by
  rcases h with h | h | ⟨s, hs, hp⟩
  · rw [to_float, h]
  · rw [to_float, h]; rfl
  · simp only [to_float, hs]
    by_cases he : s = ""
    · rw [if_pos he]
    · rw [if_neg he, hp]; rfl

/-! ## C7 — malformed numeric grading input is coerced to zero -/

/-- C7: a numeric grading field that is missing, empty or unparseable
is coerced to 0 by `to_int`/`to_float` instead of being rejected, and
the grading update then stores that 0 in every row of the group (the
handler is a total function — no input makes it fail). -/
theorem C7_malformed_input_coerced (form : Form) (name : String)
    (db : DB) (gid : String) :
    (MalformedIntInput (form name) → to_int form name = 0) ∧
    (MalformedFloatInput (form name) → to_float form name = 0) ∧
    (MalformedFloatInput (form "obtained_marks") →
      ∀ r ∈ (grade_solution db gid form).solutions, r.submission_group = some gid →
        r.obtained_marks = some 0) := by
  refine ⟨fun h => to_int_eq_zero_of_malformed h,
    fun h => to_float_eq_zero_of_malformed h, fun h r hr hg => ?_⟩
  have h6 := (grade_solution_fields db gid form r hr hg).2.2.2.2.2.1
  rw [h6, to_float_eq_zero_of_malformed h]

/-- Witness for C7: the form whose only field is the unparseable
string `abc`. -/
theorem C7_witness :
    to_int formBad "attempted" = 0 ∧ to_float formBad "obtained_marks" = 0 :=
  ⟨(C7_malformed_input_coerced formBad "attempted" initDB "g").1 (Or.inl (by decide)),
   (C7_malformed_input_coerced formBad "obtained_marks" initDB "g").2.1
     (Or.inr (Or.inr ⟨"abc", by decide, by decide⟩))⟩

/-! ## C10 — grading with every field malformed yields all zeros, PASS -/

/-- C10: on a form whose seven numeric fields are all missing or
malformed, the grade call succeeds and writes 0 into every grading
field of every row of the group, with `result_status = "PASS"` since
the coerced `obtained_marks` 0 satisfies `0 >= 0` against the coerced
`passing_marks` 0. -/
theorem C10_all_malformed_zero_pass (db : DB) (gid : String) (form : Form)
    (h : AllGradingFieldsMalformed form) :
    ∀ r ∈ (grade_solution db gid form).solutions, r.submission_group = some gid →
      r.total_questions = some 0 ∧ r.attempted = some 0 ∧ r.correct = some 0 ∧
      r.incorrect = some 0 ∧ r.total_marks = some 0 ∧ r.obtained_marks = some 0 ∧
      r.passing_marks = some 0 ∧ r.result_status = some "PASS" := by
  intro r hr hg
  obtain ⟨h1, h2, h3, h4, h5, h6, h7, h8⟩ := grade_solution_fields db gid form r hr hg
  obtain ⟨m1, m2, m3, m4, m5, m6, m7⟩ := h
  rw [to_int_eq_zero_of_malformed m1] at h1
  rw [to_int_eq_zero_of_malformed m2] at h2
  rw [to_int_eq_zero_of_malformed m3] at h3
  rw [to_int_eq_zero_of_malformed m4] at h4
  rw [to_float_eq_zero_of_malformed m5] at h5
  rw [to_float_eq_zero_of_malformed m6] at h6
  rw [to_float_eq_zero_of_malformed m7] at h7
  rw [to_float_eq_zero_of_malformed m6, to_float_eq_zero_of_malformed m7,
    if_pos (le_refl (0 : ℚ))] at h8
  exact ⟨h1, h2, h3, h4, h5, h6, h7, h8⟩

/-- Witness for C10: grading group `g1` of `dbG` with the all-absent
form marks the first row all-zero and `PASS`. -/
theorem C10_witness :
    (gradeRow formNone "g1" (mkSolutionRow 1 1 "Rakhi" "a.jpg" "t1" "g1")).obtained_marks
        = some 0 ∧
    (gradeRow formNone "g1" (mkSolutionRow 1 1 "Rakhi" "a.jpg" "t1" "g1")).result_status
        = some "PASS" := by
  have hm : AllGradingFieldsMalformed formNone :=
    ⟨Or.inl rfl, Or.inl rfl, Or.inl rfl, Or.inl rfl, Or.inl rfl, Or.inl rfl, Or.inl rfl⟩
  have m1 : gradeRow formNone "g1" (mkSolutionRow 1 1 "Rakhi" "a.jpg" "t1" "g1")
      ∈ (grade_solution dbG "g1" formNone).solutions :=
    List.mem_map_of_mem _ (by decide)
  have hg1 : (gradeRow formNone "g1"
      (mkSolutionRow 1 1 "Rakhi" "a.jpg" "t1" "g1")).submission_group = some "g1" := by
    rw [gradeRow_submission_group]; rfl
  have h := C10_all_malformed_zero_pass dbG "g1" formNone hm _ m1 hg1
  exact ⟨h.2.2.2.2.2.1, h.2.2.2.2.2.2.2⟩

/-! ## C9 — analytics LEFT JOIN averages are null without submissions -/

/-- C9: on the analytics page, a student with no solution rows has a
NULL average (and likewise a paper with no solution rows), while over
the very same store the dashboard's per-student average defaults to 0 —
the two policies coexist. -/
theorem C9_analytics_null_averages (db : DB) (u : String) (pid : Nat) :
    (db.solutions.filter (fun r => decide (r.student_username = u)) = [] →
      analyticsStudentAvg db u = none ∧ studentAvgMarks db u = 0) ∧
    (db.solutions.filter (fun r => decide (r.paper_id = pid)) = [] →
      analyticsPaperAvg db pid = none) := by
  constructor
  · intro h
    constructor
    · rw [analyticsStudentAvg, h]
      rfl
    · have hg : gradedRows db u = [] := by
        rw [List.eq_nil_iff_forall_not_mem]
        intro r hr
        obtain ⟨hmem, hu, _⟩ := mem_gradedRows hr
        have : r ∈ db.solutions.filter (fun r => decide (r.student_username = u)) :=
          List.mem_filter.mpr ⟨hmem, by simp [hu]⟩
        rw [h] at this
        exact List.not_mem_nil r this
      rw [studentAvgMarks, hg]
      rfl
  · intro h
    rw [analyticsPaperAvg, h]
    rfl

/-- Witness for C9: in `dbG` the student `student03` and the paper id 9
have no solution rows. -/
theorem C9_witness :
    analyticsStudentAvg dbG "student03" = none ∧
    studentAvgMarks dbG "student03" = 0 ∧
    analyticsPaperAvg dbG 9 = none := by
  have h := C9_analytics_null_averages dbG "student03" 9
  have h1 := h.1 (by decide)
  exact ⟨h1.1, h1.2, h.2 (by decide)⟩

/-! ## C8 — deleting a paper cascades to its submissions -/

/-- C8: after deleting a paper, no solution row references it, the
paper row itself is gone, and looking up any group whose rows all
belonged to that paper returns NotFound. -/
theorem C8_delete_paper_cascades (db : DB) (pid : Nat) (gid : String)
    (hbelong : ∀ r ∈ db.solutions, r.submission_group = some gid → r.paper_id = pid) :
    (∀ r ∈ (delete_paper db pid).solutions, r.paper_id ≠ pid) ∧
    (∀ p ∈ (delete_paper db pid).papers, p.id ≠ pid) ∧
    list_group (delete_paper db pid) gid = none := by
  refine ⟨fun r hr => ?_, fun p hp => ?_, ?_⟩
  · have h := (List.mem_filter.mp hr).2
    simpa using h
  · have h := (List.mem_filter.mp hp).2
    simpa using h
  · have hempty : groupRows (delete_paper db pid) gid = [] := by
      rw [List.eq_nil_iff_forall_not_mem]
      intro r hr
      have h1 := List.mem_filter.mp hr
      have hgid : r.submission_group = some gid := by simpa using h1.2
      have h2 := List.mem_filter.mp h1.1
      have hne : r.paper_id ≠ pid := by simpa using h2.2
      exact hne (hbelong r h2.1 hgid)
    rw [list_group, if_pos hempty]

/-- Witness for C8: deleting paper 1 of `dbG` removes group `g1`. -/
theorem C8_witness : list_group (delete_paper dbG 1) "g1" = none :=
  (C8_delete_paper_cascades dbG 1 "g1" (by decide)).2.2

/-! ## C6 — page clamping in the submission viewer -/

/-- C6: for a non-empty group and any integer page number,
`group_page` returns a file (never the 404/none path): pages below 1
give the first file, pages above the count give the last file, and
pages in range give the page-th file in insertion order. -/
theorem C6_group_page_clamps (db : DB) (gid : String) (page : Int)
    (h : groupFiles db gid ≠ []) :
    (group_page db gid page).isSome = true ∧
    (page < 1 → group_page db gid page = (groupFiles db gid).head?) ∧
    (((groupFiles db gid).length : Int) < page →
      group_page db gid page = (groupFiles db gid).getLast?) ∧
    (1 ≤ page → page ≤ ((groupFiles db gid).length : Int) →
      group_page db gid page = (groupFiles db gid)[(page - 1).toNat]?) := by
  have hn : 0 < (groupFiles db gid).length := List.length_pos.mpr h
  have hgp : group_page db gid page
      = some ((groupFiles db gid).getD
          (clampPage page (groupFiles db gid).length - 1).toNat "") := by
    simp only [group_page]
    rw [if_neg h]
  refine ⟨by rw [hgp]; rfl, fun hlt => ?_, fun hgt => ?_, fun h1 h2 => ?_⟩
  · have hc : clampPage page (groupFiles db gid).length = 1 := by
      simp only [clampPage]; split_ifs <;> omega
    have h0 : ((1 : Int) - 1).toNat = 0 := rfl
    rw [hgp, hc, h0, List.head?_eq_getElem?, List.getD_eq_getElem?_getD,
      List.getElem?_eq_getElem hn]
    rfl
  · have hc : clampPage page (groupFiles db gid).length
        = ((groupFiles db gid).length : Int) := by
      simp only [clampPage]; split_ifs <;> omega
    have h0 : (((groupFiles db gid).length : Int) - 1).toNat
        = (groupFiles db gid).length - 1 := by omega
    rw [hgp, hc, h0, List.getLast?_eq_getElem?, List.getD_eq_getElem?_getD,
      List.getElem?_eq_getElem (by omega)]
    rfl
  · have hc : clampPage page (groupFiles db gid).length = page := by
      simp only [clampPage]; split_ifs <;> omega
    rw [hgp, hc, List.getD_eq_getElem?_getD,
      List.getElem?_eq_getElem (by omega : (page - 1).toNat < (groupFiles db gid).length)]
    rfl

/-- Witness for C6 on the two-file group `g1` of `dbG`: page 0 clamps
to the first file, page 5 to the last, page 2 is in range. -/
theorem C6_witness :
    group_page dbG "g1" 0 = (groupFiles dbG "g1").head? ∧
    group_page dbG "g1" 5 = (groupFiles dbG "g1").getLast? ∧
    group_page dbG "g1" 2 = (groupFiles dbG "g1")[((2 : Int) - 1).toNat]? := by
  refine ⟨(C6_group_page_clamps dbG "g1" 0 (by decide)).2.1 (by decide),
    (C6_group_page_clamps dbG "g1" 5 (by decide)).2.2.1 (by decide),
    (C6_group_page_clamps dbG "g1" 2 (by decide)).2.2.2 (by decide) (by decide)⟩

/-! ## Upload structure lemmas -/

/-- The insert loop appends rows for the processed files: every new row
carries the fresh group id, the given paper, student and timestamp, and
NULL grading fields; on success there is one row per nonempty
filename. -/
theorem insertFiles_append (pid : Nat) (student now gid : String) :
    ∀ (files : List String) (db : DB),
      ∃ new : List SolutionRow,
        (insertFiles pid student now gid files db).1.solutions
            = db.solutions ++ new ∧
        (∀ r ∈ new, r.submission_group = some gid ∧ r.paper_id = pid ∧
          r.student_username = student ∧ r.submitted_at = now ∧ rowUngraded r) ∧
        ((insertFiles pid student now gid files db).2 = UploadResult.success →
          new.length = (files.filter (fun f => decide (f ≠ ""))).length) := by
  intro files
  induction files with
  | nil =>
    intro db
    refine ⟨[], ?_, ?_, ?_⟩
    · simp [insertFiles]
    · intro r hr
      cases hr
    · intro _
      rfl
  | cons f rest ih =>
    intro db
    by_cases hf : f = ""
    · obtain ⟨new, hsol, hprops, hlen⟩ := ih db
      refine ⟨new, ?_, hprops, ?_⟩
      · simp only [insertFiles]
        rw [if_pos hf]
        exact hsol
      · intro hs
        simp only [insertFiles] at hs
        rw [if_pos hf] at hs
        rw [hlen hs, List.filter_cons]
        simp [hf]
    · by_cases ha : isAllowedImage f = true
      · obtain ⟨new, hsol, hprops, hlen⟩ := ih (insertSolution db pid student f now gid)
        refine ⟨mkSolutionRow db.next_id pid student f now gid :: new, ?_, ?_, ?_⟩
        · simp only [insertFiles]
          rw [if_neg hf, if_pos ha, hsol, insertSolution, List.append_assoc]
          rfl
        · intro r hr
          rcases List.mem_cons.mp hr with h | h
          · subst h
            exact ⟨rfl, rfl, rfl, rfl, rfl, rfl, rfl, rfl, rfl, rfl, rfl, rfl⟩
          · exact hprops r h
        · intro hs
          simp only [insertFiles] at hs
          rw [if_neg hf, if_pos ha] at hs
          rw [List.length_cons, hlen hs, List.filter_cons]
          simp [hf]
      · refine ⟨[], ?_, ?_, ?_⟩
        · simp only [insertFiles]
          rw [if_neg hf, if_neg ha, List.append_nil]
        · intro r hr
          cases hr
        · intro hs
          simp only [insertFiles] at hs
          rw [if_neg hf, if_neg ha] at hs
          simp at hs

/-- The duplicate check of lines 522-531: any existing row for the
(student, paper) pair short-circuits the handler, leaving the store
untouched. -/
theorem upload_duplicate_of_exists (db : DB) (student : String) (pid : Nat)
    (files : List String) (gid now : String)
    (h : ∃ r ∈ db.solutions, r.student_username = student ∧ r.paper_id = pid) :
    upload_solution db student pid files gid now = (db, UploadResult.duplicate) := by
  obtain ⟨r, hr, hru, hrp⟩ := h
  have hmem : r ∈ db.solutions.filter
      (fun r => decide (r.student_username = student ∧ r.paper_id = pid)) :=
    List.mem_filter.mpr ⟨hr, by simp [hru, hrp]⟩
  have hpos : (db.solutions.filter
      (fun r => decide (r.student_username = student ∧ r.paper_id = pid))).length > 0 :=
    List.length_pos.mpr (List.ne_nil_of_mem hmem)
  simp only [upload_solution]
  rw [if_pos hpos]

/-! ## C5 — one submission per (paper, student) -/

/-- C5: if any solution row already exists for the (paper, student)
pair, a further upload call fails with the duplicate error and changes
nothing; in particular any call after a successful one fails that
way. -/
theorem C5_duplicate_submission (db : DB) (student : String) (pid : Nat)
    (files : List String) (gid now : String) :
    ((∃ r ∈ db.solutions, r.student_username = student ∧ r.paper_id = pid) →
      upload_solution db student pid files gid now = (db, UploadResult.duplicate)) ∧
    ((upload_solution db student pid files gid now).2 = UploadResult.success →
      ∀ (files2 : List String) (gid2 now2 : String),
        upload_solution (upload_solution db student pid files gid now).1
            student pid files2 gid2 now2
          = ((upload_solution db student pid files gid now).1,
             UploadResult.duplicate)) := by
  constructor
  · exact upload_duplicate_of_exists db student pid files gid now
  · intro hs files2 gid2 now2
    by_cases hdup : (db.solutions.filter
        (fun r => decide (r.student_username = student ∧ r.paper_id = pid))).length > 0
    · have hd : (upload_solution db student pid files gid now).2
          = UploadResult.duplicate := by
        simp only [upload_solution]
        rw [if_pos hdup]
      rw [hd] at hs
      exact absurd hs (by decide)
    · by_cases hall : files.all (fun f => decide (f = "")) = true
      · have hd : (upload_solution db student pid files gid now).2
            = UploadResult.noFiles := by
          simp only [upload_solution]
          rw [if_neg hdup, if_pos hall]
        rw [hd] at hs
        exact absurd hs (by decide)
      · have hup : upload_solution db student pid files gid now
            = insertFiles pid student now gid files db := by
          simp only [upload_solution]
          rw [if_neg hdup, if_neg hall]
        rw [hup] at hs ⊢
        obtain ⟨new, hsol, hprops, hlen⟩ := insertFiles_append pid student now gid files db
        have hlen2 := hlen hs
        have hne : (files.filter (fun f => decide (f ≠ ""))).length ≠ 0 := by
          intro h0
          apply hall
          rw [List.length_eq_zero] at h0
          rw [List.all_eq_true]
          intro f hf
          by_contra hfne
          have hfne' : f ≠ "" := by simpa using hfne
          have hmem : f ∈ files.filter (fun f => decide (f ≠ "")) :=
            List.mem_filter.mpr ⟨hf, by simp [hfne']⟩
          rw [h0] at hmem
          exact List.not_mem_nil f hmem
        have hnew : new ≠ [] := by
          intro h0
          apply hne
          rw [← hlen2, h0]
          rfl
        obtain ⟨r, hr⟩ := List.exists_mem_of_ne_nil new hnew
        have hprop := hprops r hr
        apply upload_duplicate_of_exists
        refine ⟨r, ?_, hprop.2.2.1, hprop.2.1⟩
        rw [hsol]
        exact List.mem_append_right _ hr

/-- Witness for C5: after `Rakhi` successfully uploads `a.jpg` for
paper 1, a second upload for paper 1 is rejected as a duplicate. -/
theorem C5_witness :
    upload_solution (upload_solution initDB "Rakhi" 1 ["a.jpg"] "g1" "t1").1
        "Rakhi" 1 ["b.jpg"] "g2" "t2"
      = ((upload_solution initDB "Rakhi" 1 ["a.jpg"] "g1" "t1").1,
         UploadResult.duplicate) :=
  (C5_duplicate_submission initDB "Rakhi" 1 ["a.jpg"] "g1" "t1").2
    (by decide) ["b.jpg"] "g2" "t2"

/-! ## Invariant preservation lemmas -/

theorem rowUngraded_of_agrees {r1 r2 : SolutionRow}
    (h : gradingAgrees r1 r2) (h2 : rowUngraded r2) : rowUngraded r1 := by
  obtain ⟨a1, a2, a3, a4, a5, a6, a7, a8⟩ := h
  obtain ⟨b1, b2, b3, b4, b5, b6, b7, b8⟩ := h2
  exact ⟨a1.trans b1, a2.trans b2, a3.trans b3, a4.trans b4,
    a5.trans b5, a6.trans b6, a7.trans b7, a8.trans b8⟩

theorem rowGraded_of_agrees {r1 r2 : SolutionRow}
    (h : gradingAgrees r1 r2) (h2 : rowGraded r2) : rowGraded r1 := by
  obtain ⟨a1, a2, a3, a4, a5, a6, a7, a8⟩ := h
  obtain ⟨b1, b2, b3, b4, b5, b6, b7, b8⟩ := h2
  exact ⟨fun hc => b1 (a1.symm.trans hc), fun hc => b2 (a2.symm.trans hc),
    fun hc => b3 (a3.symm.trans hc), fun hc => b4 (a4.symm.trans hc),
    fun hc => b5 (a5.symm.trans hc), fun hc => b6 (a6.symm.trans hc),
    fun hc => b7 (a7.symm.trans hc), fun hc => b8 (a8.symm.trans hc)⟩

theorem renameRow_submission_group (oldU newU : String) (r : SolutionRow) :
    (renameRow oldU newU r).submission_group = r.submission_group := by
  unfold renameRow; split <;> rfl

theorem renameRow_paper_id (oldU newU : String) (r : SolutionRow) :
    (renameRow oldU newU r).paper_id = r.paper_id := by
  unfold renameRow; split <;> rfl

theorem renameRow_submitted_at (oldU newU : String) (r : SolutionRow) :
    (renameRow oldU newU r).submitted_at = r.submitted_at := by
  unfold renameRow; split <;> rfl

theorem renameRow_gradingAgrees (oldU newU : String) (r : SolutionRow) :
    gradingAgrees (renameRow oldU newU r) r := by
  unfold renameRow
  split <;> exact ⟨rfl, rfl, rfl, rfl, rfl, rfl, rfl, rfl⟩

theorem renameRow_student_eq (oldU newU : String) {a b : SolutionRow}
    (h : a.student_username = b.student_username) :
    (renameRow oldU newU a).student_username
      = (renameRow oldU newU b).student_username := by
  by_cases hc : a.student_username = oldU
  · have hc2 : b.student_username = oldU := h ▸ hc
    unfold renameRow
    rw [if_pos hc, if_pos hc2]
  · have hc2 : ¬b.student_username = oldU := fun hb => hc (h.trans hb)
    unfold renameRow
    rw [if_neg hc, if_neg hc2]
    exact h

theorem upload_preserves_invariant (db : DB) (student : String) (pid : Nat)
    (files : List String) (gid now : String)
    (inv : GroupInvariant db) (fresh : FreshGroup db gid) :
    GroupInvariant (upload_solution db student pid files gid now).1 := by
  by_cases hdup : (db.solutions.filter
      (fun r => decide (r.student_username = student ∧ r.paper_id = pid))).length > 0
  · have hd : (upload_solution db student pid files gid now).1 = db := by
      simp only [upload_solution]
      rw [if_pos hdup]
    rw [hd]
    exact inv
  · by_cases hall : files.all (fun f => decide (f = "")) = true
    · have hd : (upload_solution db student pid files gid now).1 = db := by
        simp only [upload_solution]
        rw [if_neg hdup, if_pos hall]
      rw [hd]
      exact inv
    · have hup : (upload_solution db student pid files gid now).1
          = (insertFiles pid student now gid files db).1 := by
        simp only [upload_solution]
        rw [if_neg hdup, if_neg hall]
      rw [hup]
      obtain ⟨new, hsol, hprops, -⟩ := insertFiles_append pid student now gid files db
      constructor
      · intro r hr
        rw [hsol] at hr
        rcases List.mem_append.mp hr with h | h
        · exact inv.1 r h
        · exact Or.inl (hprops r h).2.2.2.2
      · intro g r1 h1 r2 h2 hg1 hg2
        rw [hsol] at h1 h2
        rcases List.mem_append.mp h1 with m1 | m1 <;>
          rcases List.mem_append.mp h2 with m2 | m2
        · exact inv.2 g r1 m1 r2 m2 hg1 hg2
        · exfalso
          have hr2g := (hprops r2 m2).1
          rw [hg2] at hr2g
          exact fresh r1 m1 (hg1.trans hr2g)
        · exfalso
          have hr1g := (hprops r1 m1).1
          rw [hg1] at hr1g
          exact fresh r2 m2 (hg2.trans hr1g)
        · obtain ⟨-, p1, s1, t1, u1⟩ := hprops r1 m1
          obtain ⟨-, p2, s2, t2, u2⟩ := hprops r2 m2
          refine ⟨p1.trans p2.symm, s1.trans s2.symm, t1.trans t2.symm, ?_⟩
          obtain ⟨a1, a2, a3, a4, a5, a6, a7, a8⟩ := u1
          obtain ⟨b1, b2, b3, b4, b5, b6, b7, b8⟩ := u2
          exact ⟨a1.trans b1.symm, a2.trans b2.symm, a3.trans b3.symm,
            a4.trans b4.symm, a5.trans b5.symm, a6.trans b6.symm,
            a7.trans b7.symm, a8.trans b8.symm⟩

theorem grade_preserves_invariant (db : DB) (gid : String) (form : Form)
    (inv : GroupInvariant db) : GroupInvariant (grade_solution db gid form) := by
  constructor
  · intro r hr
    obtain ⟨r0, hr0, rfl⟩ := mem_grade_solution hr
    by_cases hg : r0.submission_group = some gid
    · right
      rw [gradeRow, if_pos hg]
      exact ⟨Option.some_ne_none _, Option.some_ne_none _, Option.some_ne_none _,
        Option.some_ne_none _, Option.some_ne_none _, Option.some_ne_none _,
        Option.some_ne_none _, Option.some_ne_none _⟩
    · rw [gradeRow_of_not_group form gid r0 hg]
      exact inv.1 r0 hr0
  · intro g r1 h1 r2 h2 hg1 hg2
    obtain ⟨a, ha, rfl⟩ := mem_grade_solution h1
    obtain ⟨b, hb, rfl⟩ := mem_grade_solution h2
    rw [gradeRow_submission_group] at hg1
    rw [gradeRow_submission_group] at hg2
    have hcons := inv.2 g a ha b hb hg1 hg2
    by_cases hga : a.submission_group = some gid
    · have hgb : b.submission_group = some gid := hg2.trans (hg1.symm.trans hga)
      simp only [gradeRow]
      rw [if_pos hga, if_pos hgb]
      exact ⟨hcons.1, hcons.2.1, hcons.2.2.1,
        rfl, rfl, rfl, rfl, rfl, rfl, rfl, rfl⟩
    · have hgb : ¬b.submission_group = some gid := by
        rw [hg2]
        rw [hg1] at hga
        exact hga
      rw [gradeRow_of_not_group form gid a hga, gradeRow_of_not_group form gid b hgb]
      exact hcons

theorem delete_preserves_invariant (db : DB) (pid : Nat)
    (inv : GroupInvariant db) : GroupInvariant (delete_paper db pid) := by
  constructor
  · intro r hr
    exact inv.1 r (List.mem_filter.mp hr).1
  · intro g r1 h1 r2 h2 hg1 hg2
    exact inv.2 g r1 (List.mem_filter.mp h1).1 r2 (List.mem_filter.mp h2).1 hg1 hg2

theorem rename_preserves_invariant (db : DB) (oldU newU : String)
    (inv : GroupInvariant db) : GroupInvariant (rename_student db oldU newU).1 := by
  by_cases hex : db.users.any (fun u => u.username == newU) = true
  · have hd : (rename_student db oldU newU).1 = db := by
      simp only [rename_student]
      rw [if_pos hex]
    rw [hd]
    exact inv
  · have hsol : (rename_student db oldU newU).1.solutions
        = db.solutions.map (renameRow oldU newU) := by
      simp only [rename_student]
      rw [if_neg hex]
    constructor
    · intro r hmem
      rw [hsol] at hmem
      obtain ⟨r0, hr0, rfl⟩ := List.mem_map.mp hmem
      rcases inv.1 r0 hr0 with h | h
      · exact Or.inl (rowUngraded_of_agrees (renameRow_gradingAgrees oldU newU r0) h)
      · exact Or.inr (rowGraded_of_agrees (renameRow_gradingAgrees oldU newU r0) h)
    · intro g r1 h1 r2 h2 hg1 hg2
      rw [hsol] at h1 h2
      obtain ⟨a, ha, rfl⟩ := List.mem_map.mp h1
      obtain ⟨b, hb, rfl⟩ := List.mem_map.mp h2
      rw [renameRow_submission_group] at hg1
      rw [renameRow_submission_group] at hg2
      have hcons := inv.2 g a ha b hb hg1 hg2
      refine ⟨?_, ?_, ?_, ?_⟩
      · rw [renameRow_paper_id, renameRow_paper_id]
        exact hcons.1
      · exact renameRow_student_eq oldU newU hcons.2.1
      · rw [renameRow_submitted_at, renameRow_submitted_at]
        exact hcons.2.2.1
      · obtain ⟨a1, a2, a3, a4, a5, a6, a7, a8⟩ := renameRow_gradingAgrees oldU newU a
        obtain ⟨b1, b2, b3, b4, b5, b6, b7, b8⟩ := renameRow_gradingAgrees oldU newU b
        obtain ⟨c1, c2, c3, c4, c5, c6, c7, c8⟩ := hcons.2.2.2
        exact ⟨(a1.trans c1).trans b1.symm, (a2.trans c2).trans b2.symm,
          (a3.trans c3).trans b3.symm, (a4.trans c4).trans b4.symm,
          (a5.trans c5).trans b5.symm, (a6.trans c6).trans b6.symm,
          (a7.trans c7).trans b7.symm, (a8.trans c8).trans b8.symm⟩

/-! ## C3 — the submission-group invariant holds in all reachable states -/

/-- C3: in every store reachable by any sequence of the modelled
operations (paper upload/rename/delete, solution upload with a fresh
group id, grading, username rename), every submission group is
consistent: its rows share `paper_id`, `student_username` and
`submitted_at`, and all rows are ungraded or all carry identical
non-null grading fields and result status. -/
theorem C3_reachable_group_invariant (db : DB) (h : Reachable db) :
    GroupInvariant db := by
  induction h with
  | refl =>
    constructor
    · intro r hr
      cases hr
    · intro g r1 h1 r2 h2 _ _
      cases h1
  | tail _ hstep ih =>
    cases hstep with
    | paperUpload title fname uploader at_ => exact ih
    | paperRename pid newTitle => exact ih
    | paperDelete pid => exact delete_preserves_invariant _ pid ih
    | solutionUpload student pid files gid now fresh =>
      exact upload_preserves_invariant _ student pid files gid now ih fresh
    | solutionGrade gid form => exact grade_preserves_invariant _ gid form ih
    | studentRename oldU newU => exact rename_preserves_invariant _ oldU newU ih

/-- Witness for C3: the store reached by a paper upload followed by a
two-file solution upload satisfies the invariant. -/
theorem C3_witness : GroupInvariant dbW3 := by
  apply C3_reachable_group_invariant
  have s1 : Step initDB (upload_paper initDB "Algebra" "p.pdf" "admin" "d1") :=
    Step.paperUpload initDB "Algebra" "p.pdf" "admin" "d1"
  have s2 : Step (upload_paper initDB "Algebra" "p.pdf" "admin" "d1") dbW3 := by
    apply Step.solutionUpload (upload_paper initDB "Algebra" "p.pdf" "admin" "d1")
      "Rakhi" 1 ["a.jpg", "b.jpg"] "g1" "t1"
    intro r hr
    cases hr
  exact Relation.ReflTransGen.tail (Relation.ReflTransGen.single s1) s2

end EduConnect
